import Mathlib

/-!
Shallow embedding of the validation and rendering core of the
claude-code-agents repository: scripts/validator.py, scripts/renderer.py,
adapters/claude/__init__.py and adapters/langgraph/__init__.py.

Python dictionaries with optional keys are embedded as structures with
Option-typed fields: a field holds some v when the key is present with
value v, and none when the key is absent.  File access and the external
libraries (the jsonschema checker and the Jinja template engine) enter the
embedding as explicit parameters, so every definition is a total function
of its inputs.
-/

/-- One entry of a recipe's stage graph (an item of the parsed YAML list
under the graph key, scripts/validator.py).  The keys the semantic
validator reads are stage (the stage's name) and the two execution-mode
keys sequence and parallel; each step of a mode list is the referenced
agent id. -/
structure Stage where
  stage : Option String
  sequence : Option (List String)
  parallel : Option (List String)
deriving Repr, DecidableEq

/-- A parsed recipe document, narrowed to the key the semantic validator
reads (data.get of graph). -/
structure Recipe where
  graph : Option (List Stage)
deriving Repr, DecidableEq

/-- Line 127 of scripts/validator.py: the names of the stages that carry a
stage key, in graph order. -/
def stageNames (graph : List Stage) : List String :=
  graph.filterMap (fun s => s.stage)

/-- Line 128: the set of names occurring more than once among stageNames,
embedded as a duplicate-free list.  Python builds a set, whose iteration
order is unspecified; no claim depends on the order. -/
def duplicateStages (graph : List Stage) : List String :=
  ((stageNames graph).filter
    (fun name => decide ((stageNames graph).count name > 1))).dedup

/-- Lines 129-130: one combined error message when duplicateStages is
nonempty, joining the duplicated names with a comma. -/
def duplicateStageErrors (graph : List Stage) : List String :=
  if duplicateStages graph = [] then []
  else ["Duplicate stage names found: " ++
        String.intercalate ", " (duplicateStages graph)]

/-- Lines 133-143, the body of the per-stage loop: the errors the checks on
one stage (at zero-based index i) append.  Both conditions are tested;
neither test short-circuits the other. -/
def stageErrors (s : Stage) (i : Nat) : List String :=
  (if ¬ s.parallel.isSome ∧ ¬ s.sequence.isSome then
     ["Stage '" ++ s.stage.getD ("stage_" ++ toString i) ++
      "' must have either 'parallel' or 'sequence' field"]
   else []) ++
  (if s.parallel.isSome ∧ s.sequence.isSome then
     ["Stage '" ++ s.stage.getD ("stage_" ++ toString i) ++
      "' cannot have both 'parallel' and 'sequence' fields"]
   else [])

/-- The loop for i, stage in enumerate(graph) of lines 133-143, entered
with the index its first iteration uses. -/
def stageChecks : List Stage → Nat → List String
  | [], _ => []
  | s :: rest, i => stageErrors s i ++ stageChecks rest (i + 1)

/-- RecipeValidator._validate_recipe_semantics (scripts/validator.py lines
120-145): the duplicate-name check followed by the per-stage execution-mode
checks, on data.get of graph with the empty list as default. -/
def _validate_recipe_semantics (data : Recipe) : List String :=
  duplicateStageErrors (data.graph.getD []) ++
    stageChecks (data.graph.getD []) 0

/-- One violation detected by the external JSON-Schema checker
(jsonschema Draft202012Validator iter_errors): its location in the document
(absolute_path, with each component already rendered to text by str) and
its human-readable message. -/
structure SchemaError where
  absolutePath : List String
  message : String
deriving Repr, DecidableEq

/-- AgentValidator._format_validation_error (scripts/validator.py lines
48-54; RecipeValidator carries an identical copy at lines 112-118): a
violation at a non-root location is prefixed with its dot-joined path. -/
def _format_validation_error (error : SchemaError) : String :=
  if error.absolutePath ≠ [] then
    "Field '" ++ String.intercalate "." error.absolutePath ++ "': " ++
      error.message
  else
    error.message

/-- The schema-checking capability a validator instance holds after
construction: iter_errors enumerates every violation of its schema in one
pass over a document.  The checker itself is the external jsonschema
library, so the embedding keeps it abstract; a document conforms to the
schema exactly when iter_errors yields nothing. -/
structure JsonSchemaChecker (α : Type) where
  iterErrors : α → List SchemaError

/-- AgentValidator.validate_data (scripts/validator.py lines 56-67): format
every violation the checker yields, never stopping early; the verdict flag
is len(errors) == 0.  The except branch of the source only guards
exceptions out of the external checker, which the total function iterErrors
cannot raise. -/
def validate_data {α : Type} (v : JsonSchemaChecker α) (data : α) :
    Bool × List String :=
  let errors := (v.iterErrors data).map _format_validation_error
  (errors.length == 0, errors)

/-- The outcome of opening and parsing the YAML file at a path (the start
of the try body of validate_file): the file is missing (FileNotFoundError),
its text is malformed (yaml.YAMLError, with the parser's detail), or a
document was parsed. -/
inductive LoadResult (α : Type) where
  | notFound
  | yamlError (detail : String)
  | ok (data : α)
deriving Repr, DecidableEq

namespace AgentValidator

/-- AgentValidator.validate_file (scripts/validator.py lines 22-46),
parameterized by the load outcome at yaml_path: a parsed document is
checked as in validate_data; a parse failure and a missing file are caught
by the except clauses and turned into the same (false, one-message) verdict
shape. -/
def validate_file {α : Type} (v : JsonSchemaChecker α) (yaml_path : String)
    (load : LoadResult α) : Bool × List String :=
  match load with
  | .ok data =>
      let errors := (v.iterErrors data).map _format_validation_error
      (errors.length == 0, errors)
  | .yamlError detail => (false, ["YAML parsing error: " ++ detail])
  | .notFound => (false, ["File not found: " ++ yaml_path])

end AgentValidator

namespace RecipeValidator

/-- RecipeValidator.validate_file (scripts/validator.py lines 82-110): like
the agent version, but the semantic errors are appended to the schema
errors before the verdict flag is computed. -/
def validate_file (v : JsonSchemaChecker Recipe) (yaml_path : String)
    (load : LoadResult Recipe) : Bool × List String :=
  match load with
  | .ok data =>
      let errors := (v.iterErrors data).map _format_validation_error ++
        _validate_recipe_semantics data
      (errors.length == 0, errors)
  | .yamlError detail => (false, ["YAML parsing error: " ++ detail])
  | .notFound => (false, ["File not found: " ++ yaml_path])

end RecipeValidator

/-- A tool descriptor from a specification's tools list, narrowed to the
keys AgentRenderer._map_tools_to_openai reads. -/
structure Tool where
  type : Option String
  id : Option String
  description : Option String
deriving Repr, DecidableEq

/-- The parameters object of a generated function tool: an object schema
with a list of property names and a list of required names (the source
always emits it with both lists empty). -/
structure ParamSchema where
  type : String
  properties : List String
  required : List String
deriving Repr, DecidableEq

/-- The constant parameters value of scripts/renderer.py lines 133-137. -/
def emptyParams : ParamSchema :=
  { type := "object", properties := [], required := [] }

/-- One entry of the tools array the configuration strategy emits: a
built-in capability tag, or a function descriptor carrying the name, the
description and the parameter schema. -/
inductive OpenAITool where
  | builtin (type : String)
  | function (name : Option String) (description : String)
      (parameters : ParamSchema)
deriving Repr, DecidableEq

/-- The body of the per-tool loop of AgentRenderer._map_tools_to_openai
(scripts/renderer.py lines 118-139): what one iteration leaves in the
accumulated openai_tools list.  Under the membership guard the id is an
allow-listed name, so the getD default of the builtin branch is never
reached. -/
def mapToolStep (openai_tools : List OpenAITool) (tool : Tool) :
    List OpenAITool :=
  if tool.type = some "builtin" then
    if tool.id ∈ [some "code_interpreter", some "file_search"] then
      openai_tools ++ [OpenAITool.builtin (tool.id.getD "")]
    else openai_tools
  else if tool.type = some "http" then
    openai_tools ++
      [OpenAITool.function tool.id (tool.description.getD "") emptyParams]
  else openai_tools

/-- AgentRenderer._map_tools_to_openai (scripts/renderer.py lines
114-141). -/
def _map_tools_to_openai (tools : List Tool) : List OpenAITool :=
  tools.foldl mapToolStep []

/-- The per-tool mapping as the amended specification words it: a builtin
tool with an allow-listed id yields the capability tag; a builtin tool with
any other id yields nothing; an http tool yields a function descriptor
preserving the description text with the empty parameter schema; a tool of
every other type also yields nothing.  Stated per descriptor so the whole
mapping is its concatenation over the tools list. -/
def mapToolSpec (tool : Tool) : List OpenAITool :=
  if tool.type = some "builtin" then
    if tool.id ∈ [some "code_interpreter", some "file_search"] then
      [OpenAITool.builtin (tool.id.getD "")]
    else []
  else if tool.type = some "http" then
    [OpenAITool.function tool.id (tool.description.getD "") emptyParams]
  else []

/-- The model mapping of an agent specification, narrowed to the key the
requirements generator reads. -/
structure ModelCfg where
  provider : Option String
deriving Repr, DecidableEq

/-- An agent specification, narrowed to the keys the output naming and the
requirements generator read. -/
structure AgentSpec where
  id : Option String
  model : Option ModelCfg
deriving Repr, DecidableEq

/-- The output filename of AgentRenderer.render_claude_agent
(scripts/renderer.py lines 33-35): spec.get of id, with the stem of the
source path as default, plus the md extension. -/
def render_claude_agent_filename (spec : AgentSpec) (stem : String) :
    String :=
  spec.id.getD stem ++ ".md"

/-- The output filename of AgentRenderer.render_langgraph_agent
(scripts/renderer.py lines 53-55): every hyphen of the agent id (or stem)
becomes an underscore. -/
def render_langgraph_agent_filename (spec : AgentSpec) (stem : String) :
    String :=
  (spec.id.getD stem).replace "-" "_" ++ "_agent.py"

/-- The output filename of AgentRenderer.render_assistant_config
(scripts/renderer.py lines 84-86). -/
def render_assistant_config_filename (spec : AgentSpec) (stem : String) :
    String :=
  spec.id.getD stem ++ "_assistant.json"

/-- A ClaudeAdapter instance after construction: env embeds the Jinja
environment bound to the templates directory at construction time, as the
function from a template name and a specification to the rendered text
(template rendering is an external deterministic component). -/
structure ClaudeAdapter where
  env : String → AgentSpec → String

/-- ClaudeAdapter.render_agent (adapters/claude/__init__.py lines 22-25). -/
def ClaudeAdapter.render_agent (a : ClaudeAdapter) (spec : AgentSpec) :
    String :=
  a.env "claude_subagent.md.jinja" spec

/-- A LangGraphAdapter instance after construction, embedded exactly as
ClaudeAdapter. -/
structure LangGraphAdapter where
  env : String → AgentSpec → String

/-- LangGraphAdapter.render_agent (adapters/langgraph/__init__.py lines
22-25). -/
def LangGraphAdapter.render_agent (a : LangGraphAdapter) (spec : AgentSpec) :
    String :=
  a.env "langgraph_agent.py.jinja" spec

/-- The base requirement set of LangGraphAdapter.generate_requirements_file
(adapters/langgraph/__init__.py lines 51-55), as first built. -/
def baseRequirements : List String :=
  ["langgraph>=0.0.60", "langchain>=0.1.0", "langchain-core>=0.1.0"]

/-- The provider a specification contributes to the requirements set
(line 59): spec.get of model with an empty mapping as default, then get of
provider with the anthropic default. -/
def specProvider (spec : AgentSpec) : String :=
  (spec.model.bind fun m => m.provider).getD "anthropic"

/-- Insertion into the requirements set: adding a member is a no-op. -/
def insertReq (r : String) (requirements : List String) : List String :=
  if r ∈ requirements then requirements else requirements ++ [r]

/-- The per-spec body of the loop at lines 58-63 of
adapters/langgraph/__init__.py. -/
def addProviderReq (requirements : List String) (spec : AgentSpec) :
    List String :=
  if specProvider spec = "anthropic" then
    insertReq "langchain-anthropic>=0.1.0" requirements
  else if specProvider spec = "openai" then
    insertReq "langchain-openai>=0.1.0" requirements
  else requirements

/-- The requirements set after the loop over the specs. -/
def collectRequirements (specs : List AgentSpec) : List String :=
  specs.foldl addProviderReq baseRequirements

/-- LangGraphAdapter.generate_requirements_file
(adapters/langgraph/__init__.py lines 49-71), as the lines of the written
manifest: sorted(requirements), one requirement per line.  Python's set is
embedded as a duplicate-free list; sorting a duplicate-free list yields the
same lines sorted over the set yields. -/
def LangGraphAdapter.generate_requirements_file (specs : List AgentSpec) :
    List String :=
  List.insertionSort (fun a b => a ≤ b) (collectRequirements specs)

/-- Classifier for the combined duplicate-name error inside a semantic
error list: it is the only semantic error whose text starts with the
letter D; every per-stage error starts with the word Stage. -/
def isDupMessage (e : String) : Bool :=
  e.data.head? == some 'D'

/-- Fixture: a recipe graph whose two stages are both named build. -/
def c1WitnessGraph : List Stage :=
  [⟨some "build", some ["agent1"], none⟩, ⟨some "build", some ["agent2"], none⟩]

/-- Fixture: a graph whose first stage (named alpha) has neither execution
mode and whose second stage (unnamed) has both. -/
def c2WitnessGraph : List Stage :=
  [⟨some "alpha", none, none⟩, ⟨none, some ["step-a"], some ["step-b"]⟩]

/-- Fixture: a template environment for the adapter witnesses. -/
def c8Env : String → AgentSpec → String := fun name spec =>
  name ++ ":" ++ spec.id.getD "no-id"

/-- Fixture: one specification per provider of the concrete requirements
scenario. -/
def c6WitnessSpecs : List AgentSpec :=
  [⟨some "agent-a", some ⟨some "anthropic"⟩⟩, ⟨some "agent-b", some ⟨some "openai"⟩⟩]

/-- Fixture: a collection holding one specification with no model mapping
at all. -/
def c10WitnessSpecs : List AgentSpec :=
  [⟨some "draft-agent", none⟩]

/-! ## Helper lemmas -/

theorem isDupMessage_dupMsg (x : String) :
    isDupMessage ("Duplicate stage names found: " ++ x) = true := by
  unfold isDupMessage
  rw [String.data_append]
  rfl

theorem isDupMessage_stageMsg (x y : String) :
    isDupMessage ("Stage '" ++ x ++ y) = false := by
  have h1 : ("Stage '" ++ x).data = 'S' :: ("tage '".data ++ x.data) := by
    rw [String.data_append]
    rfl
  unfold isDupMessage
  rw [String.data_append, h1]
  rfl

theorem stageErrors_not_dupMessage (s : Stage) (i : Nat) :
    ∀ e ∈ stageErrors s i, ¬ isDupMessage e = true := by
  intro e he
  rw [stageErrors, List.mem_append] at he
  rcases he with h | h <;> split at h <;>
    simp_all [isDupMessage_stageMsg]

theorem stageChecks_countP (graph : List Stage) (k : Nat) :
    (stageChecks graph k).countP isDupMessage = 0 := by
  induction graph generalizing k with
  | nil => rfl
  | cons s rest ih =>
    simp only [stageChecks, List.countP_append, ih,
      List.countP_eq_zero.mpr (stageErrors_not_dupMessage s k)]

theorem mem_duplicateStages (graph : List Stage) (name : String) :
    name ∈ duplicateStages graph ↔ 2 ≤ (stageNames graph).count name := by
  simp only [duplicateStages, List.mem_dedup, List.mem_filter,
    decide_eq_true_eq]
  constructor
  · rintro ⟨-, h2⟩
    omega
  · intro h
    exact ⟨List.count_pos_iff.mp (by omega), by omega⟩

theorem duplicateStages_nodup (graph : List Stage) :
    (duplicateStages graph).Nodup := by
  unfold duplicateStages
  exact List.nodup_dedup _

theorem duplicateStages_ne_nil (graph : List Stage) (name : String)
    (h : 2 ≤ (stageNames graph).count name) : duplicateStages graph ≠ [] := by
  intro hnil
  have hmem := (mem_duplicateStages graph name).mpr h
  rw [hnil] at hmem
  exact List.not_mem_nil _ hmem

theorem dupMessage_mem_semantics (graph : List Stage)
    (h : duplicateStages graph ≠ []) :
    ("Duplicate stage names found: " ++
        String.intercalate ", " (duplicateStages graph)) ∈
      _validate_recipe_semantics ⟨some graph⟩ := by
  unfold _validate_recipe_semantics
  simp only [Option.getD_some]
  rw [List.mem_append]
  left
  unfold duplicateStageErrors
  rw [if_neg h]
  exact List.mem_singleton.mpr rfl

theorem stageErrors_sub_stageChecks (graph : List Stage) (k i : Nat)
    (s : Stage) (hi : graph[i]? = some s) :
    ∀ e ∈ stageErrors s (k + i), e ∈ stageChecks graph k := by
  induction graph generalizing k i with
  | nil => simp at hi
  | cons t rest ih =>
    intro e he
    cases i with
    | zero =>
      simp only [List.getElem?_cons_zero, Option.some.injEq] at hi
      subst hi
      simp only [stageChecks, List.mem_append]
      left
      simpa using he
    | succ j =>
      simp only [List.getElem?_cons_succ] at hi
      simp only [stageChecks, List.mem_append]
      right
      have harith : k + (j + 1) = (k + 1) + j := by omega
      rw [harith] at he
      exact ih (k + 1) j hi e he

theorem stageErrors_sub_semantics (graph : List Stage) (i : Nat) (s : Stage)
    (hi : graph[i]? = some s) :
    ∀ e ∈ stageErrors s i, e ∈ _validate_recipe_semantics ⟨some graph⟩ := by
  intro e he
  unfold _validate_recipe_semantics
  simp only [Option.getD_some]
  rw [List.mem_append]
  right
  have he0 : e ∈ stageErrors s (0 + i) := by rwa [Nat.zero_add]
  exact stageErrors_sub_stageChecks graph 0 i s hi e he0

/-! ## Claims C1 and C2 -/

/-- Claim C1: for every recipe graph with at least one stage name occurring
two or more times, the semantic validation of
RecipeValidator._validate_recipe_semantics produces exactly one combined
duplicate-name error (counted by its leading letter, which distinguishes it
from every per-stage error), that error joins the duplicated names, and the
joined name list holds every duplicated stage name exactly once each,
membership depending only on a name repeating, not on how often. -/
theorem duplicate_names_yield_one_combined_error (graph : List Stage)
    (h : ∃ name, 2 ≤ (stageNames graph).count name) :
    (_validate_recipe_semantics ⟨some graph⟩).countP isDupMessage = 1 ∧
    ("Duplicate stage names found: " ++
        String.intercalate ", " (duplicateStages graph)) ∈
      _validate_recipe_semantics ⟨some graph⟩ ∧
    (duplicateStages graph).Nodup ∧
    (∀ name, name ∈ duplicateStages graph ↔
      2 ≤ (stageNames graph).count name) := by
  obtain ⟨name, hn⟩ := h
  have hne := duplicateStages_ne_nil graph name hn
  refine ⟨?_, dupMessage_mem_semantics graph hne, duplicateStages_nodup graph,
    fun n => mem_duplicateStages graph n⟩
  unfold _validate_recipe_semantics
  simp only [Option.getD_some]
  rw [List.countP_append, stageChecks_countP]
  unfold duplicateStageErrors
  rw [if_neg hne]
  simp [List.countP_cons, isDupMessage_dupMsg]

/-- Witness for C1: the recipe graph with two stages named build. -/
theorem duplicate_names_yield_one_combined_error_witness :
    2 ≤ (stageNames c1WitnessGraph).count "build" ∧
    ((_validate_recipe_semantics ⟨some c1WitnessGraph⟩).countP isDupMessage = 1 ∧
     ("Duplicate stage names found: " ++
         String.intercalate ", " (duplicateStages c1WitnessGraph)) ∈
       _validate_recipe_semantics ⟨some c1WitnessGraph⟩ ∧
     (duplicateStages c1WitnessGraph).Nodup ∧
     (∀ name, name ∈ duplicateStages c1WitnessGraph ↔
       2 ≤ (stageNames c1WitnessGraph).count name)) :=
  ⟨by decide,
   duplicate_names_yield_one_combined_error c1WitnessGraph ⟨"build", by decide⟩⟩

/-- Claim C2: for every stage of the graph, both execution-mode conditions
are checked independently: a stage with neither sequence nor parallel
contributes the must-have-either error, a stage with both contributes the
cannot-have-both error, and either message cites the stage's own name when
the stage key is present and the placeholder stage_i built from the stage's
zero-based index otherwise (the cited text is the getD of the name over the
placeholder). -/
theorem stage_mode_checks_cite_name_or_index (graph : List Stage) (i : Nat)
    (s : Stage) (hi : graph[i]? = some s) :
    (s.parallel = none → s.sequence = none →
      ("Stage '" ++ s.stage.getD ("stage_" ++ toString i) ++
        "' must have either 'parallel' or 'sequence' field") ∈
        _validate_recipe_semantics ⟨some graph⟩) ∧
    (∀ p, s.parallel = some p → ∀ q, s.sequence = some q →
      ("Stage '" ++ s.stage.getD ("stage_" ++ toString i) ++
        "' cannot have both 'parallel' and 'sequence' fields") ∈
        _validate_recipe_semantics ⟨some graph⟩) := by
  constructor
  · intro hp hq
    refine stageErrors_sub_semantics graph i s hi _ ?_
    simp [stageErrors, hp, hq]
  · intro p hp q hq
    refine stageErrors_sub_semantics graph i s hi _ ?_
    simp [stageErrors, hp, hq]

/-- Witness for C2: the first stage of the fixture graph (named alpha) has
neither mode and yields the must-have-either error citing alpha; the second
stage (unnamed, index 1) has both modes and yields the cannot-have-both
error citing the placeholder. -/
theorem stage_mode_checks_cite_name_or_index_witness :
    (c2WitnessGraph[0]? = some ⟨some "alpha", none, none⟩ ∧
      ("Stage '" ++ (some "alpha").getD ("stage_" ++ toString 0) ++
        "' must have either 'parallel' or 'sequence' field") ∈
        _validate_recipe_semantics ⟨some c2WitnessGraph⟩) ∧
    (c2WitnessGraph[1]? = some ⟨none, some ["step-a"], some ["step-b"]⟩ ∧
      ("Stage '" ++ (none : Option String).getD ("stage_" ++ toString 1) ++
        "' cannot have both 'parallel' and 'sequence' fields") ∈
        _validate_recipe_semantics ⟨some c2WitnessGraph⟩) :=
  ⟨⟨rfl, (stage_mode_checks_cite_name_or_index c2WitnessGraph 0 _ rfl).1 rfl rfl⟩,
   ⟨rfl, (stage_mode_checks_cite_name_or_index c2WitnessGraph 1 _ rfl).2
      ["step-b"] rfl ["step-a"] rfl⟩⟩

/-! ## Claim C3 -/

/-- Claim C3: validate_data returns the (true, empty) verdict exactly when
the schema checker detects no violation, and on a document with several
violations the returned error list holds one formatted entry per detected
violation, collected in the checker's single pass with no early stop. -/
theorem validate_data_conforming_and_complete {α : Type}
    (v : JsonSchemaChecker α) (data : α) :
    (validate_data v data = (true, []) ↔ v.iterErrors data = []) ∧
    (validate_data v data).2.length = (v.iterErrors data).length ∧
    (validate_data v data).2 =
      (v.iterErrors data).map _format_validation_error := by
  refine ⟨⟨fun h => ?_, fun h => ?_⟩, ?_, rfl⟩
  · have h2 : (validate_data v data).2 = [] := by rw [h]
    exact List.map_eq_nil_iff.mp h2
  · simp [validate_data, h]
  · simp [validate_data]

/-! ## Claim C4 -/

/-- Claim C4 counterexample: a tool descriptor of the non-builtin type mcp
is dropped entirely by the configuration strategy's tool mapping rather
than mapped to a callable-function descriptor preserving its description. -/
theorem map_tools_drops_unknown_type_cex :
    _map_tools_to_openai [⟨some "mcp", some "doc-fetch", some "Fetches documents"⟩]
      = [] := by
  decide

theorem mapToolStep_eq (acc : List OpenAITool) (tool : Tool) :
    mapToolStep acc tool = acc ++ mapToolSpec tool := by
  unfold mapToolStep mapToolSpec
  split_ifs <;> simp

theorem map_tools_foldl_eq (tools : List Tool) :
    ∀ acc : List OpenAITool,
      tools.foldl mapToolStep acc = acc ++ tools.flatMap mapToolSpec := by
  induction tools with
  | nil => intro acc; simp
  | cons t rest ih =>
    intro acc
    rw [List.foldl_cons, List.flatMap_cons, mapToolStep_eq, ih,
      List.append_assoc]

/-- Claim C4 (amended): the tool mapping of
AgentRenderer._map_tools_to_openai concatenates, per tool descriptor, the
amended per-tool specification mapToolSpec: a builtin tool with an
allow-listed id becomes the capability tag, a builtin tool with any other
id is silently dropped, an http tool becomes a function descriptor
preserving the description text with the empty parameter schema, and a tool
of every other type is silently dropped as well. -/
theorem map_tools_to_openai_per_tool (tools : List Tool) :
    _map_tools_to_openai tools = tools.flatMap mapToolSpec := by
  unfold _map_tools_to_openai
  rw [map_tools_foldl_eq]
  simp

/-! ## Claim C5 -/

/-- Claim C5 counterexample: on a missing file, validate_file does not
abort the call; it returns an ordinary (false, error-list) verdict carrying
the missing path, whose verdict flag is the very flag an evaluated-invalid
document produces, so the two outcomes share one shape. -/
theorem validate_file_missing_not_distinguished_cex :
    AgentValidator.validate_file ⟨fun d => d⟩ "agents/missing.yaml"
        LoadResult.notFound
      = (false, ["File not found: agents/missing.yaml"]) ∧
    (AgentValidator.validate_file ⟨fun d => d⟩ "agents/missing.yaml"
        LoadResult.notFound).1
      = (AgentValidator.validate_file ⟨fun d => d⟩ "agents/bad.yaml"
          (LoadResult.ok [SchemaError.mk [] "'id' is a required property"])).1 :=
  ⟨rfl, rfl⟩

/-- Claim C5 (amended): a call to validate_file on a missing file does not
abort: both validators catch the file-not-found failure and return the same
(bool, error-list) verdict shape as a validation failure, false paired with
the single message naming the missing path. -/
theorem validate_file_missing_is_error_verdict {α : Type}
    (v : JsonSchemaChecker α) (vr : JsonSchemaChecker Recipe)
    (path : String) :
    AgentValidator.validate_file v path LoadResult.notFound
      = (false, ["File not found: " ++ path]) ∧
    RecipeValidator.validate_file vr path LoadResult.notFound
      = (false, ["File not found: " ++ path]) :=
  ⟨rfl, rfl⟩

/-! ## Claims C6 and C10 -/

theorem mem_insertReq (x r : String) (l : List String) :
    x ∈ insertReq r l ↔ x ∈ l ∨ x = r := by
  unfold insertReq
  split_ifs with h
  · constructor
    · exact Or.inl
    · rintro (hx | rfl)
      exacts [hx, h]
  · simp [List.mem_append]

theorem insertReq_nodup (r : String) (l : List String) (h : l.Nodup) :
    (insertReq r l).Nodup := by
  unfold insertReq
  split_ifs with hr
  · exact h
  · simp [List.nodup_append, List.disjoint_singleton, h, hr]

theorem addProviderReq_nodup (l : List String) (spec : AgentSpec)
    (h : l.Nodup) : (addProviderReq l spec).Nodup := by
  unfold addProviderReq
  split_ifs <;> first | exact insertReq_nodup _ _ h | exact h

theorem collectRequirements_nodup (specs : List AgentSpec) :
    (collectRequirements specs).Nodup := by
  unfold collectRequirements
  have h : ∀ l : List String, l.Nodup →
      (specs.foldl addProviderReq l).Nodup := by
    induction specs with
    | nil => intro l hl; simpa using hl
    | cons s rest ih =>
      intro l hl
      rw [List.foldl_cons]
      exact ih _ (addProviderReq_nodup l s hl)
  exact h baseRequirements (by decide)

theorem mem_foldl_addProviderReq (specs : List AgentSpec) :
    ∀ (l : List String) (x : String),
      x ∈ specs.foldl addProviderReq l ↔
        x ∈ l ∨
        (x = "langchain-anthropic>=0.1.0" ∧
          ∃ s ∈ specs, specProvider s = "anthropic") ∨
        (x = "langchain-openai>=0.1.0" ∧
          ∃ s ∈ specs, specProvider s = "openai") := by
  induction specs with
  | nil => intro l x; simp
  | cons s rest ih =>
    intro l x
    rw [List.foldl_cons, ih]
    unfold addProviderReq
    split_ifs with h1 h2
    · rw [mem_insertReq]
      simp only [List.exists_mem_cons_iff, h1]
      constructor
      · rintro ((hx | rfl) | ⟨rfl, hs⟩ | ⟨rfl, hs⟩)
        · exact Or.inl hx
        · exact Or.inr (Or.inl ⟨rfl, Or.inl trivial⟩)
        · exact Or.inr (Or.inl ⟨rfl, Or.inr hs⟩)
        · exact Or.inr (Or.inr ⟨rfl, Or.inr hs⟩)
      · rintro (hx | ⟨rfl, hs | hs⟩ | ⟨rfl, hs | hs⟩)
        · exact Or.inl (Or.inl hx)
        · exact Or.inl (Or.inr rfl)
        · exact Or.inr (Or.inl ⟨rfl, hs⟩)
        · exact absurd hs (by decide)
        · exact Or.inr (Or.inr ⟨rfl, hs⟩)
    · rw [mem_insertReq]
      simp only [List.exists_mem_cons_iff, h2]
      constructor
      · rintro ((hx | rfl) | ⟨rfl, hs⟩ | ⟨rfl, hs⟩)
        · exact Or.inl hx
        · exact Or.inr (Or.inr ⟨rfl, Or.inl trivial⟩)
        · exact Or.inr (Or.inl ⟨rfl, Or.inr hs⟩)
        · exact Or.inr (Or.inr ⟨rfl, Or.inr hs⟩)
      · rintro (hx | ⟨rfl, hs | hs⟩ | ⟨rfl, hs | hs⟩)
        · exact Or.inl (Or.inl hx)
        · exact absurd hs (by decide)
        · exact Or.inr (Or.inl ⟨rfl, hs⟩)
        · exact Or.inl (Or.inr rfl)
        · exact Or.inr (Or.inr ⟨rfl, hs⟩)
    · simp only [List.exists_mem_cons_iff]
      constructor
      · rintro (hx | ⟨rfl, hs⟩ | ⟨rfl, hs⟩)
        · exact Or.inl hx
        · exact Or.inr (Or.inl ⟨rfl, Or.inr hs⟩)
        · exact Or.inr (Or.inr ⟨rfl, Or.inr hs⟩)
      · rintro (hx | ⟨rfl, hs | hs⟩ | ⟨rfl, hs | hs⟩)
        · exact Or.inl hx
        · exact absurd hs h1
        · exact Or.inr (Or.inl ⟨rfl, hs⟩)
        · exact absurd hs h2
        · exact Or.inr (Or.inr ⟨rfl, hs⟩)

theorem mem_generate_requirements_iff (specs : List AgentSpec) (x : String) :
    x ∈ LangGraphAdapter.generate_requirements_file specs ↔
      x ∈ baseRequirements ∨
      (x = "langchain-anthropic>=0.1.0" ∧
        ∃ s ∈ specs, specProvider s = "anthropic") ∨
      (x = "langchain-openai>=0.1.0" ∧
        ∃ s ∈ specs, specProvider s = "openai") := by
  unfold LangGraphAdapter.generate_requirements_file collectRequirements
  rw [(List.perm_insertionSort _ _).mem_iff]
  exact mem_foldl_addProviderReq specs baseRequirements x

/-- Claim C6: the generated dependency manifest holds each package entry at
most once, is sorted, always contains the fixed base package set, and holds
the anthropic-specific entry exactly when some specification's effective
provider is anthropic and the openai-specific entry exactly when some
specification's effective provider is openai; in particular, over a
collection whose providers are anthropic and openai it holds both
provider-specific entries and no duplicate of any base entry. -/
theorem generate_requirements_manifest (specs : List AgentSpec) :
    (LangGraphAdapter.generate_requirements_file specs).Nodup ∧
    (LangGraphAdapter.generate_requirements_file specs).Sorted (· ≤ ·) ∧
    baseRequirements ⊆ LangGraphAdapter.generate_requirements_file specs ∧
    ("langchain-anthropic>=0.1.0" ∈
        LangGraphAdapter.generate_requirements_file specs ↔
      ∃ s ∈ specs, specProvider s = "anthropic") ∧
    ("langchain-openai>=0.1.0" ∈
        LangGraphAdapter.generate_requirements_file specs ↔
      ∃ s ∈ specs, specProvider s = "openai") := by
  refine ⟨?_, ?_, ?_, ?_, ?_⟩
  · exact ((List.perm_insertionSort _ _).nodup_iff).mpr
      (collectRequirements_nodup specs)
  · exact List.sorted_insertionSort _ _
  · intro r hr
    rw [mem_generate_requirements_iff]
    exact Or.inl hr
  · rw [mem_generate_requirements_iff]
    simp [baseRequirements]
  · rw [mem_generate_requirements_iff]
    simp [baseRequirements]

/-- Witness for C6: the two-provider fixture of the claim's concrete
scenario, at which the manifest holds both provider-specific entries (the
two membership equivalences, with each existential discharged by one of the
two fixture specifications) and no duplicate of any entry. -/
theorem generate_requirements_manifest_witness :
    ((LangGraphAdapter.generate_requirements_file c6WitnessSpecs).Nodup ∧
     (LangGraphAdapter.generate_requirements_file c6WitnessSpecs).Sorted (· ≤ ·) ∧
     baseRequirements ⊆
       LangGraphAdapter.generate_requirements_file c6WitnessSpecs ∧
     ("langchain-anthropic>=0.1.0" ∈
         LangGraphAdapter.generate_requirements_file c6WitnessSpecs ↔
       ∃ s ∈ c6WitnessSpecs, specProvider s = "anthropic") ∧
     ("langchain-openai>=0.1.0" ∈
         LangGraphAdapter.generate_requirements_file c6WitnessSpecs ↔
       ∃ s ∈ c6WitnessSpecs, specProvider s = "openai")) :=
  generate_requirements_manifest c6WitnessSpecs

/-- Claim C10: a specification with no model mapping, or a model mapping
with no provider key, is treated as if its provider were anthropic, and its
presence in the collection alone puts the anthropic-specific entry in the
manifest. -/
theorem missing_provider_treated_as_anthropic (specs : List AgentSpec)
    (spec : AgentSpec) (hmem : spec ∈ specs)
    (hprov : spec.model = none ∨
      ∃ m, spec.model = some m ∧ m.provider = none) :
    specProvider spec = "anthropic" ∧
    "langchain-anthropic>=0.1.0" ∈
      LangGraphAdapter.generate_requirements_file specs := by
  have hp : specProvider spec = "anthropic" := by
    rcases hprov with h | ⟨m, hm, hmp⟩
    · simp [specProvider, h]
    · simp [specProvider, hm, hmp]
  refine ⟨hp, ?_⟩
  rw [mem_generate_requirements_iff]
  exact Or.inr (Or.inl ⟨rfl, spec, hmem, hp⟩)

/-- Witness for C10: a collection holding one specification with no model
mapping nevertheless receives the anthropic entry. -/
theorem missing_provider_treated_as_anthropic_witness :
    ((⟨some "draft-agent", none⟩ : AgentSpec) ∈ c10WitnessSpecs) ∧
    ((⟨some "draft-agent", none⟩ : AgentSpec).model = none) ∧
    (specProvider ⟨some "draft-agent", none⟩ = "anthropic" ∧
     "langchain-anthropic>=0.1.0" ∈
       LangGraphAdapter.generate_requirements_file c10WitnessSpecs) :=
  ⟨by decide, rfl,
   missing_provider_treated_as_anthropic c10WitnessSpecs _ (by decide)
     (Or.inl rfl)⟩

/-! ## Claim C7 -/

/-- Claim C7 counterexample: the validator formats a violation at a
non-root location with a Field-quoted prefix, not in the bare
path-colon-message shape the claim states. -/
theorem format_validation_error_shape_cex :
    _format_validation_error
        ⟨["model", "provider"], "'xyz' is not one of ['anthropic', 'openai', 'local']"⟩
      = "Field 'model.provider': 'xyz' is not one of ['anthropic', 'openai', 'local']" ∧
    _format_validation_error
        ⟨["model", "provider"], "'xyz' is not one of ['anthropic', 'openai', 'local']"⟩
      ≠ "model.provider: 'xyz' is not one of ['anthropic', 'openai', 'local']" := by
  constructor
  · rfl
  · decide

/-- Claim C7 (amended): for every violation at a non-root location, the
formatted message is the word Field, the dot-joined path wrapped in single
quotes, a colon and a space, and then the human-readable violation
message. -/
theorem format_validation_error_nonroot (e : SchemaError)
    (h : e.absolutePath ≠ []) :
    _format_validation_error e =
      "Field '" ++ String.intercalate "." e.absolutePath ++ "': " ++
        e.message := by
  unfold _format_validation_error
  rw [if_pos h]

/-- Witness for C7's amended theorem at the model.provider location. -/
theorem format_validation_error_nonroot_witness :
    (["model", "provider"] : List String) ≠ [] ∧
    _format_validation_error ⟨["model", "provider"], "42 is not of type 'string'"⟩
      = "Field '" ++ String.intercalate "." ["model", "provider"] ++ "': " ++
        "42 is not of type 'string'" :=
  ⟨by decide,
   format_validation_error_nonroot
     ⟨["model", "provider"], "42 is not of type 'string'"⟩ (by decide)⟩

/-! ## Claim C8 -/

/-- Claim C8: render_agent is a pure function of the specification and the
template environment the adapter was constructed over, for the document
adapter and the program adapter alike: two calls over equal environments
and equal specifications return equal output text. -/
theorem render_agent_deterministic (a a' : ClaudeAdapter)
    (b b' : LangGraphAdapter) (spec spec' : AgentSpec)
    (ha : a.env = a'.env) (hb : b.env = b'.env) (hs : spec = spec') :
    a.render_agent spec = a'.render_agent spec' ∧
    b.render_agent spec = b'.render_agent spec' := by
  subst hs
  unfold ClaudeAdapter.render_agent LangGraphAdapter.render_agent
  rw [ha, hb]
  exact ⟨rfl, rfl⟩

/-- Witness for C8: rendering the fixture specification twice over the
fixture environment returns the same text from either adapter. -/
theorem render_agent_deterministic_witness :
    (ClaudeAdapter.mk c8Env).env = (ClaudeAdapter.mk c8Env).env ∧
    (LangGraphAdapter.mk c8Env).env = (LangGraphAdapter.mk c8Env).env ∧
    ((ClaudeAdapter.mk c8Env).render_agent ⟨some "test-agent", none⟩ =
       (ClaudeAdapter.mk c8Env).render_agent ⟨some "test-agent", none⟩ ∧
     (LangGraphAdapter.mk c8Env).render_agent ⟨some "test-agent", none⟩ =
       (LangGraphAdapter.mk c8Env).render_agent ⟨some "test-agent", none⟩) :=
  ⟨rfl, rfl,
   render_agent_deterministic (ClaudeAdapter.mk c8Env) (ClaudeAdapter.mk c8Env)
     (LangGraphAdapter.mk c8Env) (LangGraphAdapter.mk c8Env)
     ⟨some "test-agent", none⟩ ⟨some "test-agent", none⟩ rfl rfl rfl⟩

/-! ## Claim C9 -/

/-- Claim C9: every rendering strategy derives the output filename from the
id field when present and from the source file's stem otherwise, under the
per-target naming rules: the document strategy appends the md extension,
the program strategy replaces hyphens with underscores and appends the
agent program suffix, and the configuration strategy appends the assistant
suffix. -/
theorem output_filenames_from_id_or_stem (spec : AgentSpec) (stem : String) :
    (spec.id = none →
      render_claude_agent_filename spec stem = stem ++ ".md" ∧
      render_langgraph_agent_filename spec stem =
        stem.replace "-" "_" ++ "_agent.py" ∧
      render_assistant_config_filename spec stem =
        stem ++ "_assistant.json") ∧
    (∀ i, spec.id = some i →
      render_claude_agent_filename spec stem = i ++ ".md" ∧
      render_langgraph_agent_filename spec stem =
        i.replace "-" "_" ++ "_agent.py" ∧
      render_assistant_config_filename spec stem =
        i ++ "_assistant.json") := by
  constructor
  · intro h
    simp [render_claude_agent_filename, render_langgraph_agent_filename,
      render_assistant_config_filename, h]
  · intro i h
    simp [render_claude_agent_filename, render_langgraph_agent_filename,
      render_assistant_config_filename, h]

/-- Witness for C9: a spec without id renders from the stem data-loader; a
spec with the id test-agent renders from the id under the same rules. -/
theorem output_filenames_from_id_or_stem_witness :
    (render_claude_agent_filename ⟨none, none⟩ "data-loader" =
       "data-loader" ++ ".md" ∧
     render_langgraph_agent_filename ⟨none, none⟩ "data-loader" =
       ("data-loader").replace "-" "_" ++ "_agent.py" ∧
     render_assistant_config_filename ⟨none, none⟩ "data-loader" =
       "data-loader" ++ "_assistant.json") ∧
    (render_claude_agent_filename ⟨some "test-agent", none⟩ "x" =
       "test-agent" ++ ".md" ∧
     render_langgraph_agent_filename ⟨some "test-agent", none⟩ "x" =
       ("test-agent").replace "-" "_" ++ "_agent.py" ∧
     render_assistant_config_filename ⟨some "test-agent", none⟩ "x" =
       "test-agent" ++ "_assistant.json") :=
  ⟨(output_filenames_from_id_or_stem ⟨none, none⟩ "data-loader").1 rfl,
   (output_filenames_from_id_or_stem ⟨some "test-agent", none⟩ "x").2
     "test-agent" rfl⟩
